import Mathlib

/-!
Verification development for the browser-side session/authentication layer
(`common-app`): a shallow embedding of the credential storage façade, the
session store (`BasicUserStore`), the HTTP interceptor pipeline (`HttpImpl`),
and the pure helpers (`extractContentDispositionFilename`,
`parseResponseDataAsBlob`), together with theorems settling the specified
properties of these components.

JavaScript values are modelled as follows: machine strings are Lean `String`
(lists of unicode scalar values), nullable values are `Option`, JS truthiness
is made explicit at each use site (empty string, `0`, `null`/`undefined` are
falsy), and operations that can throw return `Except`/`Option`, with
`try`/`catch` blocks embedded as explicit matches on those results.
-/

set_option autoImplicit false

namespace CommonApp

/-- The set of characters removed by JavaScript `String.prototype.trim`
(ECMAScript WhiteSpace and LineTerminator code points). -/
def isJsWs (c : Char) : Bool :=
  let n := c.toNat
  n == 0x20 || n == 0x09 || n == 0x0A || n == 0x0D ||
  n == 0x0B || n == 0x0C || n == 0xA0 || n == 0x1680 ||
  (0x2000 ≤ n && n ≤ 0x200A) || n == 0x2028 || n == 0x2029 ||
  n == 0x202F || n == 0x205F || n == 0x3000 || n == 0xFEFF

/-- Leading-whitespace removal on a character list. -/
def trimLeftL (l : List Char) : List Char := l.dropWhile isJsWs

/-- JavaScript `String.prototype.trim` on a character list: drop leading and
trailing whitespace. -/
def trimList (l : List Char) : List Char :=
  ((l.dropWhile isJsWs).reverse.dropWhile isJsWs).reverse

/-- JavaScript `String.prototype.trim`. -/
def jsTrim (s : String) : String := ⟨trimList s.data⟩

/-- Value of a hexadecimal digit, `none` for a non-hex character. -/
def hexVal (c : Char) : Option Nat :=
  if '0' ≤ c && c ≤ '9' then some (c.toNat - 48)
  else if 'A' ≤ c && c ≤ 'F' then some (c.toNat - 55)
  else if 'a' ≤ c && c ≤ 'f' then some (c.toNat - 87)
  else none

/-- UTF-8 encoding of a unicode scalar value, as a list of bytes. -/
def charUtf8Bytes (c : Char) : List Nat :=
  let n := c.toNat
  if n < 0x80 then [n]
  else if n < 0x800 then [0xC0 + n / 64, 0x80 + n % 64]
  else if n < 0x10000 then
    [0xE0 + n / 4096, 0x80 + (n / 64) % 64, 0x80 + n % 64]
  else
    [0xF0 + n / 262144, 0x80 + (n / 4096) % 64, 0x80 + (n / 64) % 64,
     0x80 + n % 64]

/-- Percent-decoding phase of `decodeURIComponent`: each `%HH` escape yields
one byte, any other character passes through as its UTF-8 bytes.  `none`
models the `URIError` thrown on a `%` that is not followed by two hex
digits. -/
def pctBytes : List Char → Option (List Nat)
  | [] => some []
  | '%' :: h1 :: h2 :: rest =>
    match hexVal h1, hexVal h2 with
    | some a, some b => (pctBytes rest).map ((a * 16 + b) :: ·)
    | _, _ => none
  | '%' :: _ => none
  | c :: rest => (pctBytes rest).map (charUtf8Bytes c ++ ·)

/-- Whether a byte is a UTF-8 continuation byte. -/
def isCont (b : Nat) : Bool := 0x80 ≤ b && b ≤ 0xBF

/-- Payload of a UTF-8 continuation byte. -/
def contVal (b : Nat) : Nat := b - 0x80

/-- Strict UTF-8 decoding of a byte list (overlong encodings, surrogate
code points and out-of-range sequences are rejected), modelling the
validation performed by `decodeURIComponent`. -/
def utf8Decode : List Nat → Option (List Char)
  | [] => some []
  | b :: rest =>
    if b < 0x80 then (utf8Decode rest).map (Char.ofNat b :: ·)
    else if 0xC2 ≤ b && b ≤ 0xDF then
      match rest with
      | b1 :: rest1 =>
        if isCont b1 then
          (utf8Decode rest1).map (Char.ofNat ((b - 0xC0) * 64 + contVal b1) :: ·)
        else none
      | [] => none
    else if 0xE0 ≤ b && b ≤ 0xEF then
      match rest with
      | b1 :: b2 :: rest2 =>
        let ok1 :=
          if b == 0xE0 then 0xA0 ≤ b1 && b1 ≤ 0xBF
          else if b == 0xED then 0x80 ≤ b1 && b1 ≤ 0x9F
          else isCont b1
        if ok1 && isCont b2 then
          (utf8Decode rest2).map
            (Char.ofNat ((b - 0xE0) * 4096 + contVal b1 * 64 + contVal b2) :: ·)
        else none
      | _ => none
    else if 0xF0 ≤ b && b ≤ 0xF4 then
      match rest with
      | b1 :: b2 :: b3 :: rest3 =>
        let ok1 :=
          if b == 0xF0 then 0x90 ≤ b1 && b1 ≤ 0xBF
          else if b == 0xF4 then 0x80 ≤ b1 && b1 ≤ 0x8F
          else isCont b1
        if ok1 && isCont b2 && isCont b3 then
          (utf8Decode rest3).map
            (Char.ofNat ((b - 0xF0) * 262144 + contVal b1 * 4096 +
              contVal b2 * 64 + contVal b3) :: ·)
        else none
      | _ => none
    else none

/-- JavaScript `decodeURIComponent` on a character list; `none` models a
thrown `URIError` (invalid escape or invalid UTF-8 byte sequence). -/
def decodeURIComponent (cs : List Char) : Option (List Char) :=
  (pctBytes cs).bind utf8Decode

/-- Whether `pat` is a prefix of `cs`, comparing characters one by one. -/
def startsWithList : List Char → List Char → Bool
  | [], _ => true
  | _ :: _, [] => false
  | p :: ps, c :: cs => p == c && startsWithList ps cs

/-- The apostrophe character. -/
def apos : Char := Char.ofNat 39

/-- Whether a character is a single or double quote. -/
def isQuote (c : Char) : Bool := c == apos || c == '"'

/-- The literal `filename*=` (RFC 5987 extended parameter). -/
def fnStarPat : List Char := "filename*=".toList

/-- The literal charset tag: `UTF-8` followed by two apostrophes. -/
def utf8Tag : List Char := ("UTF-8" ++ ⟨[apos, apos]⟩ : String).toList

/-- The literal `filename=`. -/
def fnPlainPat : List Char := "filename=".toList

/-- Match of the source regular expression for the extended-form parameter
(literal `filename*=`, an optional charset tag, then a capture of one or
more non-semicolon characters) anchored at the start of `cs`, returning the
capture group.  The optional charset tag is matched greedily; if the
mandatory capture then fails, the engine backtracks and retries with the
tag unconsumed. -/
def matchStarAt (cs : List Char) : Option (List Char) :=
  if startsWithList fnStarPat cs then
    let rest := cs.drop fnStarPat.length
    if startsWithList utf8Tag rest then
      let cap := (rest.drop utf8Tag.length).takeWhile (· ≠ ';')
      if cap ≠ [] then some cap
      else
        let cap2 := rest.takeWhile (· ≠ ';')
        if cap2 ≠ [] then some cap2 else none
    else
      let cap := rest.takeWhile (· ≠ ';')
      if cap ≠ [] then some cap else none
  else none

/-- Leftmost match of the extended-form parameter pattern in `cs`. -/
def scanStar : List Char → Option (List Char)
  | [] => none
  | c :: cs =>
    match matchStarAt (c :: cs) with
    | some cap => some cap
    | none => scanStar cs

/-- Match of the source regular expression for the plain-form parameter
(literal `filename=`, an optional opening quote, a capture of one or more
non-quote characters, an optional closing quote) anchored at the start of
`cs`, returning the capture group.  The optional opening quote is consumed
greedily; the mandatory capture must then match at least one character. -/
def matchPlainAt (cs : List Char) : Option (List Char) :=
  if startsWithList fnPlainPat cs then
    let rest := cs.drop fnPlainPat.length
    match rest with
    | [] => none
    | c :: cs1 =>
      if isQuote c then
        let cap := cs1.takeWhile (fun x => !isQuote x)
        if cap ≠ [] then some cap else none
      else some (rest.takeWhile (fun x => !isQuote x))
  else none

/-- Leftmost match of the plain-form parameter pattern in `cs`. -/
def scanPlain : List Char → Option (List Char)
  | [] => none
  | c :: cs =>
    match matchPlainAt (c :: cs) with
    | some cap => some cap
    | none => scanPlain cs

/-- `extractContentDispositionFilename(contentDisposition)`: extract a
filename from a `Content-Disposition` header value.  A falsy argument
(`null`, `undefined` or the empty string) yields `none`; the `filename*=`
form is preferred, its capture trimmed and percent-decoded (a decoding
failure is the thrown `URIError`, modelled as `Except.error`); otherwise the
plain `filename=` capture is trimmed and returned; otherwise `none`. -/
def extractContentDispositionFilename (contentDisposition : Option String) :
    Except Unit (Option String) :=
  match contentDisposition with
  | none => .ok none
  | some s =>
    if s = "" then .ok none
    else
      match scanStar s.data with
      | some cap =>
        match decodeURIComponent (trimList cap) with
        | some d => .ok (some ⟨d⟩)
        | none => .error ()
      | none =>
        match scanPlain s.data with
        | some cap => .ok (some ⟨trimList cap⟩)
        | none => .ok none

/-- One part of a binary blob: a byte chunk or a text segment. -/
inductive BlobPart
  | bytes (bs : List Nat)
  | str (s : String)
  deriving DecidableEq, Repr

/-- A binary blob: its ordered parts and the MIME type it was tagged with. -/
structure Blob where
  parts : List BlobPart
  btype : Option String
  deriving DecidableEq, Repr

/-- An element of a JavaScript array or array-like payload: a (finite)
number, `NaN`, a string, or any other value. -/
inductive JSElem
  | num (v : Int)
  | nan
  | str (s : String)
  | other
  deriving DecidableEq, Repr

/-- The payload shapes dispatched on by the blob coercion:
`null`/`undefined`; an existing `Blob`; an `ArrayBuffer` or typed-array view
(a byte sequence); a plain array; an array-like object (indexed elements,
possibly with holes); a plain object, carrying the result of
`JSON.stringify` applied to it (`none` when stringification throws, e.g. on
a cyclic object); or a string. -/
inductive JSVal
  | nullish
  | blob (b : Blob)
  | buffer (bs : List Nat)
  | array (elems : List JSElem)
  | arrayLike (elems : List (Option JSElem))
  | object (stringifyResult : Option String)
  | str (s : String)
  deriving DecidableEq, Repr

/-- `JSON.stringify` on a plain object, through the stringification result
the object carries; `Except.error` is the `TypeError` thrown on a cyclic
structure. -/
def jsonStringifyObj (stringifyResult : Option String) : Except Unit String :=
  match stringifyResult with
  | some s => .ok s
  | none => .error ()

/-- `JSON.stringify` of a plain string: wrap it in quotation marks (the
strings this is applied to contain no characters needing escapes). -/
def jsonQuote (s : String) : String := "\"" ++ s ++ "\""

/-- The ASCII whitespace stripped by forgiving-base64 decoding (`atob`). -/
def isB64Ws (c : Char) : Bool :=
  c == ' ' || c == '\t' || c == '\n' || c == '\x0C' || c == '\r'

/-- Value of a base64 alphabet character, `none` for anything else. -/
def b64Val (c : Char) : Option Nat :=
  if 'A' ≤ c && c ≤ 'Z' then some (c.toNat - 65)
  else if 'a' ≤ c && c ≤ 'z' then some (c.toNat - 71)
  else if '0' ≤ c && c ≤ '9' then some (c.toNat + 4)
  else if c == '+' then some 62
  else if c == '/' then some 63
  else none

/-- Drop at most two trailing base64 padding characters. -/
def stripB64Pad (cs : List Char) : List Char :=
  let cs1 := if cs.getLast? == some '=' then cs.dropLast else cs
  if cs1.getLast? == some '=' then cs1.dropLast else cs1

/-- Decode a list of 6-bit values into bytes, one 4-group at a time; a
trailing group of three or two values yields two bytes or one byte. -/
def b64Group : List Nat → List Nat
  | a :: b :: c :: d :: rest =>
    (a * 4 + b / 16) :: ((b % 16) * 16 + c / 4) :: ((c % 4) * 64 + d) ::
      b64Group rest
  | [a, b, c] => [a * 4 + b / 16, (b % 16) * 16 + c / 4]
  | [a, b] => [a * 4 + b / 16]
  | [_] => []
  | [] => []

/-- `atob`: forgiving-base64 decoding of a string into bytes; `none` models
the thrown `InvalidCharacterError` (bad length or non-alphabet input). -/
def atob (s : String) : Option (List Nat) :=
  let cs := s.data.filter (fun c => !isB64Ws c)
  let cs := if cs.length % 4 == 0 then stripB64Pad cs else cs
  if cs.length % 4 == 1 then none
  else (cs.mapM b64Val).map b64Group

/-- The chunk size used by `decodeBase64ToByteArrays`. -/
def BUFFER_SIZE : Nat := 1024

/-- Split a byte list into consecutive chunks of at most `BUFFER_SIZE`
bytes, mirroring the slicing loop of `decodeBase64ToByteArrays`. -/
def chunkBytes (l : List Nat) : List (List Nat) :=
  if h : l = [] then []
  else l.take BUFFER_SIZE :: chunkBytes (l.drop BUFFER_SIZE)
termination_by l.length
decreasing_by
  have hp : 0 < l.length := List.length_pos.mpr h
  simp only [List.length_drop, BUFFER_SIZE]
  omega

/-- `tryConvertBase64ToBlob(data, contentType)`: base64-decode `data` into
chunked byte arrays and assemble a blob; the `catch` branch falls back to a
blob holding the raw string as literal text. -/
def tryConvertBase64ToBlob (data : String) (contentType : Option String) :
    Blob :=
  match atob data with
  | some bs => ⟨(chunkBytes bs).map BlobPart.bytes, contentType⟩
  | none => ⟨[BlobPart.str data], contentType⟩

/-- Storing an element into a `Uint8Array` slot: finite numbers are taken
modulo 256, `NaN` and non-numbers store 0 (the source keeps a value only
when `typeof value` is number and the value is not `NaN`). -/
def elemByte : JSElem → Nat
  | .num v => (v % 256).toNat
  | _ => 0

/-- The tail of the binary branch of the coercion: a one-element array whose
element is a string becomes literal text content; otherwise every element is
coerced to an unsigned byte.  The blob type is the content type with falsy
values replaced by the empty string. -/
def buildFromDataArray (dataArray : List JSElem) (contentType : Option String) :
    Blob :=
  match dataArray with
  | [JSElem.str s] => ⟨[BlobPart.str s], some (contentType.getD "")⟩
  | _ => ⟨[BlobPart.bytes (dataArray.map elemByte)], some (contentType.getD "")⟩

/-- An HTTP response as seen by the blob coercion: only its `data` field is
consulted. -/
structure BlobResponse where
  data : JSVal

/-- `parseResponseDataAsBlob(response, contentType)`: coerce a response
payload of any shape into a blob.  Dispatch order follows the source:
`null`/`undefined` makes an empty blob; an existing blob is returned
unchanged; non-string data is converted element-wise (buffers pass through,
arrays and array-like objects become byte buffers, other objects are
JSON-stringified, with the stringification failure caught and replaced by
the `String(data)` fallback); a `data:` URL is split at its comma and
base64-decoded (failures caught, degrading to literal text); any other
string is literal text content. -/
def parseResponseDataAsBlob (response : BlobResponse)
    (contentType : Option String) : Except Unit Blob :=
  match response.data with
  | .nullish => .ok ⟨[], contentType⟩
  | .blob b => .ok b
  | .buffer bs => .ok ⟨[BlobPart.bytes bs], some (contentType.getD "")⟩
  | .array elems => .ok (buildFromDataArray elems contentType)
  | .arrayLike elems =>
    .ok (buildFromDataArray (elems.map (fun e => e.getD (JSElem.num 0)))
      contentType)
  | .object stringifyResult =>
    let dataArray :=
      match jsonStringifyObj stringifyResult with
      | .ok s => [JSElem.str s]
      | .error _ => [JSElem.str (jsonQuote "[object Object]")]
    .ok (buildFromDataArray dataArray contentType)
  | .str s =>
    if startsWithList "data:".toList s.data then
      let base64Data : String :=
        match s.data.findIdx? (· == ',') with
        | some i => ⟨s.data.drop (i + 1)⟩
        | none => s
      .ok (tryConvertBase64ToBlob base64Data contentType)
    else .ok ⟨[BlobPart.str s], contentType⟩

/-- A key/value parameter of a structured server error. -/
structure ErrorParam where
  key : String
  value : String
  deriving DecidableEq, Repr

/-- A structured server error body (`ErrorInfo`). -/
structure ErrorInfo where
  type : Option String := none
  code : String := ""
  message : Option String := none
  params : Option (List ErrorParam) := none
  deriving DecidableEq, Repr

/-- The observable outcome of the error classifier: either the re-login
confirmation flow (`confirmLogin`, which on affirmation invokes the
credential-reset callback and navigates to the login view) or a blocking
alert followed by rejection with the original error (no credential reset,
no navigation). -/
inductive HandleResult
  | confirmLogin
  | alertThenReject (title message : String)
  deriving DecidableEq, Repr

/-- Minimal JSON string escaping (quotation mark and backslash), enough for
the parameter dumps built by the error handlers. -/
def jsonEscape (s : String) : String :=
  ⟨s.data.foldr (fun c acc =>
      if c == '"' then '\\' :: '"' :: acc
      else if c == '\\' then '\\' :: '\\' :: acc
      else c :: acc) []⟩

/-- Rendering of a parameter list by the bigint-safe JSON codec
(`Json.stringify`), an external collaborator modelled here on lists of
plain key/value parameters. -/
def jsonStringifyParams (ps : List ErrorParam) : String :=
  "[" ++ String.intercalate ","
    (ps.map (fun p =>
      "\x7b\"key\":\"" ++ jsonEscape p.key ++ "\",\"value\":\"" ++
        jsonEscape p.value ++ "\"\x7d")) ++ "]"

/-- The generic line used when an error carries no human message. -/
def unknownErrorGeneric : String := "发生未知错误：请与管理员联系"

/-- JS truthiness of a nullable string. -/
def truthyStr : Option String → Bool
  | none => false
  | some s => s != ""

/-- The alert text built by `handleUnknownError`: the message suffixed with
a contact-the-administrator notice (or a generic line when the message is
falsy), then, when `params` is present, an appended JSON dump. -/
def unknownErrorText (error : ErrorInfo) : String :=
  let line1 :=
    match error.message with
    | some m => if m != "" then m ++ "：请与管理员联系" else unknownErrorGeneric
    | none => unknownErrorGeneric
  let line2 :=
    match error.params with
    | some ps => "<br><br>错误参数为：" ++ jsonStringifyParams ps
    | none => ""
  line1 ++ line2

/-- `handleUnknownError(error)`: alert with `unknownErrorText`, then reject
with the error. -/
def handleUnknownError (error : ErrorInfo) : HandleResult :=
  .alertThenReject "错误" (unknownErrorText error)

/-- `handleKnownError(error)`: alert with the plain message (or the generic
line when the message is falsy), then reject with the error. -/
def handleKnownError (error : ErrorInfo) : HandleResult :=
  let message :=
    match error.message with
    | some m => if m != "" then m else unknownErrorGeneric
    | none => unknownErrorGeneric
  .alertThenReject "错误" message

/-- The disambiguator actually consulted by `handleResponseError`: the
`value` of the first element of the `params` array, when `params` is truthy
and non-empty. -/
def firstParamValue (error : ErrorInfo) : Option String :=
  match error.params with
  | some (p :: _) => some p.value
  | _ => none

/-- `handleResponseError(http, error)`: dispatch on the server error code,
with `SESSION_EXPIRED` and `INVALID_TOKEN` disambiguated by
`error.params && error.params[0]?.value`, and every code outside the fixed
vocabulary routed to `handleKnownError`. -/
def handleResponseError (error : ErrorInfo) : HandleResult :=
  if error.code == "LOGIN_REQUIRED" then .confirmLogin
  else if error.code == "SESSION_EXPIRED" then
    if firstParamValue error == some "app" then
      .alertThenReject "错误" "应用会话已过期，请与管理员联系"
    else if firstParamValue error == some "user" then .confirmLogin
    else handleUnknownError error
  else if error.code == "INVALID_TOKEN" then
    if firstParamValue error == some "app" then
      .alertThenReject "错误" "应用令牌错误，请与管理员联系"
    else if firstParamValue error == some "user" then .confirmLogin
    else handleUnknownError error
  else if error.code == "APP_AUTHENTICATION_REQUIRED" then
    .alertThenReject "错误" "当前应用未认证或令牌已过期，请与管理员联系"
  else handleKnownError error

/-- Modelled from the spec: the disambiguator named by the specification
table for `SESSION_EXPIRED`/`INVALID_TOKEN` is the value of the parameter
whose key is `entity`.  Kept separate from `firstParamValue` (the
disambiguator the code consults) so the two dispatch rules can be
compared. -/
def specEntityParamValue (params : Option (List ErrorParam)) : Option String :=
  match params with
  | some ps => (ps.find? (fun p => p.key == "entity")).map (fun p => p.value)
  | none => none

/-- The per-request configuration flags consulted by the interceptors.
`noAutoClearLoading` is settable by callers (and documented and tested in
the repository) but never read by the interceptor implementations. -/
structure ReqConfig where
  returnResponse : Bool := false
  noAutoClearLoading : Bool := false
  skipAutoErrorHandling : Bool := false
  deriving DecidableEq, Repr

/-- A successful transport response as seen by the success interceptor. -/
structure AxiosResponse where
  config : Option ReqConfig := none
  data : Option JSVal := none

/-- What the success interceptor returns: the full response object, the
decoded body, or `null` when the body is absent. -/
inductive SuccessOutcome
  | fullResponse
  | body (d : JSVal)
  | nullBody
  deriving DecidableEq, Repr

/-- The observable effects of the success interceptor: whether
`loading.clear()` ran, and the returned value. -/
structure SuccessResult where
  loadingCleared : Bool
  outcome : SuccessOutcome
  deriving DecidableEq, Repr

/-- `responseSuccessInterceptor(http, response)`: `loading.clear()` is
invoked unconditionally, then either the full response object (when the
request configuration set `returnResponse` to `true`) or
`response.data ?? null` is returned. -/
def responseSuccessInterceptor (response : AxiosResponse) : SuccessResult :=
  { loadingCleared := true
    outcome :=
      if (response.config.map (fun c => c.returnResponse)).getD false then
        .fullResponse
      else
        match response.data with
        | some d => .body d
        | none => .nullBody }

/-- A transport failure as seen by the failure interceptor: the request
configuration, the structured server error body when one was captured
(`error.response?.data`), and the transport-level message. -/
structure AxiosError where
  config : Option ReqConfig := none
  responseData : Option ErrorInfo := none
  message : Option String := none

/-- The action taken by the failure interceptor: immediate rejection with a
structured error (automatic handling opted out), dispatch to the error
classifier, or a generic network alert followed by rejection. -/
inductive FailAction
  | reject (e : ErrorInfo)
  | handle (r : HandleResult)
  | networkAlert (message : String) (e : ErrorInfo)
  deriving DecidableEq, Repr

/-- The observable effects of the failure interceptor. -/
structure FailResult where
  loadingCleared : Bool
  action : FailAction
  deriving DecidableEq, Repr

/-- Rendering of the whole transport error by the bigint-safe JSON codec,
modelled on the fields carried by `AxiosError` (only consulted when the
error has no `message`). -/
def jsonStringifyAxiosError (error : AxiosError) : String :=
  "\x7b\"message\":" ++
    (match error.message with
     | some m => "\"" ++ jsonEscape m ++ "\""
     | none => "null") ++ "\x7d"

/-- The `ErrorInfo` synthesized for a failure without a structured body. -/
def networkErrorInfo (message : String) : ErrorInfo :=
  { type := some "NETWORK_ERROR", code := "UNKNOWN"
    message := some ("网络请求发生未知错误: " ++ message) }

/-- `responseFailInterceptor(http, error)`: `loading.clear()` is invoked
unconditionally; a structured body is either rejected as-is (when
`skipAutoErrorHandling` is set) or dispatched to `handleResponseError`;
otherwise a `NETWORK_ERROR`/`UNKNOWN` `ErrorInfo` is synthesized and either
rejected as-is (opt-out) or surfaced through a generic alert before
rejection. -/
def responseFailInterceptor (error : AxiosError) : FailResult :=
  { loadingCleared := true
    action :=
      match error.responseData with
      | some e =>
        if (error.config.map (fun c => c.skipAutoErrorHandling)).getD false then
          .reject e
        else .handle (handleResponseError e)
      | none =>
        let message := error.message.getD (jsonStringifyAxiosError error)
        let errorInfo := networkErrorInfo message
        if (error.config.map (fun c => c.skipAutoErrorHandling)).getD false then
          .reject errorInfo
        else .networkAlert ("网络请求发生未知错误: " ++ message) errorInfo }

/-- The arguments of `download` that influence the resolved result (the URL
and query parameters do not). -/
structure DownloadArgs where
  mimeType : Option String := none
  autoDownload : Bool := true
  filename : Option String := none

/-- The successful full response consumed by the download continuation: the
two headers it consults plus the payload. -/
structure DownloadResponse where
  contentTypeHeader : Option String := none
  contentDispositionHeader : Option String := none
  data : JSVal := JSVal.nullish

/-- The blob built by `new Blob` from the raw response payload, tagged with
the resolved content type. -/
structure DownloadBlob where
  part : JSVal
  btype : Option String
  deriving DecidableEq, Repr

/-- The object `download` resolves with. -/
structure DownloadTriple where
  blob : DownloadBlob
  filename : String
  mimeType : Option String
  deriving DecidableEq, Repr

/-- The success continuation of `download(url, params, mimeType,
autoDownload, filename)`: the content type is the explicit argument or the
`Content-Type` header; the filename is the explicit argument, else the
extracted `Content-Disposition` filename (the extractor may throw), else the
fixed default `downloaded_file`; a blob is built from the raw payload; when
`autoDownload` is set the resolved filename is percent-decoded for the
anchor `download` attribute (which may throw on a malformed name); finally
the triple is returned.  `Except.error` models a thrown error, which turns
the returned promise into a rejection. -/
def downloadSuccess (args : DownloadArgs) (response : DownloadResponse) :
    Except Unit DownloadTriple :=
  let contentType := args.mimeType.orElse (fun _ => response.contentTypeHeader)
  let filenameResolved : Except Unit String :=
    match args.filename with
    | some f => .ok f
    | none =>
      match extractContentDispositionFilename
          response.contentDispositionHeader with
      | .ok extracted => .ok (extracted.getD "downloaded_file")
      | .error e => .error e
  match filenameResolved with
  | .error e => .error e
  | .ok filename =>
    if args.autoDownload then
      match decodeURIComponent filename.data with
      | some _ => .ok ⟨⟨response.data, contentType⟩, filename, contentType⟩
      | none => .error ()
    else .ok ⟨⟨response.data, contentType⟩, filename, contentType⟩

/-- An access token: only its `value` participates in the logic modelled
here (`createTime`/`maxAge` are opaque payload). -/
structure Token where
  value : String
  deriving DecidableEq, Repr

/-- A user profile record.  Fields hold `none` for `null`/`undefined`; the
lazily materialized empty record uses empty strings. -/
structure UserInfo where
  id : Option Nat := none
  username : Option String := none
  nickname : Option String := none
  avatar : Option String := none
  name : Option String := none
  gender : Option String := none
  mobile : Option String := none
  organization : Option String := none
  deriving DecidableEq, Repr

/-- The contents of `AuthStorage`: one `Option` per persisted key under the
app-code prefix (`none` = key absent).  The token lives in the cookie jar,
everything else in local storage. -/
structure AuthStorageState where
  userId : Option Nat := none
  username : Option String := none
  nickname : Option String := none
  avatar : Option String := none
  name : Option String := none
  gender : Option String := none
  mobile : Option String := none
  organization : Option String := none
  password : Option String := none
  saveLogin : Option Bool := none
  privileges : Option (List String) := none
  roles : Option (List String) := none
  token : Option Token := none
  deriving DecidableEq, Repr

/-- `AuthStorage.storeUserInfo(user)`: store each profile field (the
organization is not among them). -/
def AuthStorageState.storeUserInfo (st : AuthStorageState) (u : UserInfo) :
    AuthStorageState :=
  { st with userId := u.id, username := u.username, nickname := u.nickname,
            avatar := u.avatar, name := u.name, gender := u.gender,
            mobile := u.mobile }

/-- `AuthStorage.loadUserInfo()`: assemble a profile record from the
persisted fields (including the organization). -/
def AuthStorageState.loadUserInfo (st : AuthStorageState) : UserInfo :=
  { id := st.userId, username := st.username, nickname := st.nickname,
    avatar := st.avatar, name := st.name, gender := st.gender,
    mobile := st.mobile, organization := st.organization }

/-- `AuthStorage.removeUserInfo()`: remove every profile field, the
organization included. -/
def AuthStorageState.removeUserInfo (st : AuthStorageState) : AuthStorageState :=
  { st with userId := none, username := none, nickname := none,
            avatar := none, name := none, gender := none, mobile := none,
            organization := none }

/-- `AuthStorage.removeLoginResponse()`: remove the user info, the password,
the token, the privileges, the roles and the organization (the save-login
flag is kept). -/
def AuthStorageState.removeLoginResponse (st : AuthStorageState) :
    AuthStorageState :=
  { st.removeUserInfo with password := none, token := none,
                           privileges := none, roles := none }

/-- The in-memory state of `BasicUserStore` (the session-scoped social
identity triple, which no modelled operation reads, is omitted). -/
structure StoreState where
  user : Option UserInfo := none
  password : String := ""
  saveLogin : Bool := false
  token : Option Token := none
  privileges : List String := []
  roles : List String := []
  deriving DecidableEq, Repr

/-- A session store: its reactive state plus its `AuthStorage`. -/
structure Store where
  state : StoreState
  storage : AuthStorageState
  deriving DecidableEq, Repr

/-- The empty profile materialized by `ensureUserExist` on a null user. -/
def emptyUser : UserInfo :=
  { id := none, username := some "", nickname := some "", avatar := some "",
    name := some "", gender := some "", mobile := some "" }

/-- `ensureUserExist()`: materialize the empty profile when the user is
null, and return the live record. -/
def ensureUserExist (s : Store) : Store × UserInfo :=
  match s.state.user with
  | some u => (s, u)
  | none => ({ s with state := { s.state with user := some emptyUser } },
             emptyUser)

/-- `get loggedIn()`: the double-negated truthiness of `token?.value`. -/
def loggedIn (s : Store) : Bool :=
  match s.state.token with
  | some t => t.value != ""
  | none => false

/-- `resetState()`: reset the reactive state to its initial defaults (the
storage is untouched). -/
def resetState (s : Store) : Store := { s with state := {} }

/-- `setUserInfo(user)`: copy the record into state; write it through to
storage only when `saveLogin` is set (no eviction otherwise). -/
def setUserInfo (s : Store) (user : UserInfo) : Store :=
  let s := { s with state := { s.state with user := some user } }
  if s.state.saveLogin then { s with storage := s.storage.storeUserInfo user }
  else s

/-- `setUserId(userId)`: set the id on the live user record; store it when
`saveLogin` is set, actively remove the persisted id otherwise. -/
def setUserId (s : Store) (userId : Option Nat) : Store :=
  let (s, u) := ensureUserExist s
  let s := { s with state := { s.state with user := some { u with id := userId } } }
  if s.state.saveLogin then { s with storage := { s.storage with userId := userId } }
  else { s with storage := { s.storage with userId := none } }

/-- `setUsername(username)`: set the username on the live user record;
store-or-remove per `saveLogin`. -/
def setUsername (s : Store) (username : String) : Store :=
  let (s, u) := ensureUserExist s
  let s := { s with state :=
    { s.state with user := some { u with username := some username } } }
  if s.state.saveLogin then
    { s with storage := { s.storage with username := some username } }
  else { s with storage := { s.storage with username := none } }

/-- `setPassword(password)`: set the in-memory password; store-or-remove per
`saveLogin`. -/
def setPassword (s : Store) (password : String) : Store :=
  let s := { s with state := { s.state with password := password } }
  if s.state.saveLogin then
    { s with storage := { s.storage with password := some password } }
  else { s with storage := { s.storage with password := none } }

/-- `setMobile(mobile)`: set the mobile on the live user record;
store-or-remove per `saveLogin`. -/
def setMobile (s : Store) (mobile : String) : Store :=
  let (s, u) := ensureUserExist s
  let s := { s with state :=
    { s.state with user := some { u with mobile := some mobile } } }
  if s.state.saveLogin then
    { s with storage := { s.storage with mobile := some mobile } }
  else { s with storage := { s.storage with mobile := none } }

/-- `setAvatar(avatar)`: set `avatar ?? empty` on the live user record and
always persist the original argument, regardless of `saveLogin`. -/
def setAvatar (s : Store) (avatar : Option String) : Store :=
  let (s, u) := ensureUserExist s
  let s := { s with state :=
    { s.state with user := some { u with avatar := some (avatar.getD "") } } }
  { s with storage := { s.storage with avatar := avatar } }

/-- `setSaveLogin(saveLogin)`: set and always persist the flag. -/
def setSaveLogin (s : Store) (saveLogin : Bool) : Store :=
  { s with state := { s.state with saveLogin := saveLogin },
           storage := { s.storage with saveLogin := some saveLogin } }

/-- `setToken(token)`: copy the token into state; store it when `saveLogin`
is set, actively remove the persisted token otherwise. -/
def setToken (s : Store) (token : Token) : Store :=
  let s := { s with state := { s.state with token := some token } }
  if s.state.saveLogin then
    { s with storage := { s.storage with token := some token } }
  else { s with storage := { s.storage with token := none } }

/-- `removeToken()`: clear the in-memory token and unconditionally remove
the persisted one. -/
def removeToken (s : Store) : Store :=
  { s with state := { s.state with token := none },
           storage := { s.storage with token := none } }

/-- `resetToken()`: remove the token first, then reset the state. -/
def resetToken (s : Store) : Store := resetState (removeToken s)

/-- `setPrivileges(privileges)`: coalesce null to the empty list and always
persist the coalesced list, regardless of `saveLogin`. -/
def setPrivileges (s : Store) (privileges : Option (List String)) : Store :=
  let ps := privileges.getD []
  { s with state := { s.state with privileges := ps },
           storage := { s.storage with privileges := some ps } }

/-- `setRoles(roles)`: coalesce null to the empty list and always persist
the coalesced list, regardless of `saveLogin`. -/
def setRoles (s : Store) (roles : Option (List String)) : Store :=
  let rs := roles.getD []
  { s with state := { s.state with roles := rs },
           storage := { s.storage with roles := some rs } }

/-- JS truthiness of a nullable number (`0`, `null` and `undefined` are
falsy). -/
def truthyId : Option Nat → Bool
  | none => false
  | some n => n != 0

/-- The outcome of an awaited call on the authentication API
`checkToken(userId, tokenValue)`: it resolves with a truthy or falsy value,
or rejects. -/
inductive ApiOutcome
  | resolves (truthy : Bool)
  | rejects
  deriving DecidableEq, Repr

/-- `isTokenValid(userId, tokenValue)`: the double-negated resolution value;
a rejection is caught and swallowed into `false`. -/
def isTokenValid (outcome : ApiOutcome) : Bool :=
  match outcome with
  | .resolves t => t
  | .rejects => false

/-- `loadTokenFromAuthStorage()`: hydrate username/password/save-flag from
storage when present (each through its setter), then, when a persisted user
id and a persisted token value both exist, revalidate through `checkToken`;
a valid token is committed via `setUserId` and `setToken` with result
`true`; an invalid or rejected check removes the whole persisted login
response with result `false`; without an id/token pair the result is `false`
with no further effect.  The second component of the result is the returned
boolean. -/
def loadTokenFromAuthStorage (s : Store) (checkTokenOutcome : ApiOutcome) :
    Store × Bool :=
  let u := s.storage.loadUserInfo
  let s := if truthyStr u.username then setUserInfo s u else s
  let s :=
    match s.storage.password with
    | some p => if p != "" then setPassword s p else s
    | none => s
  let s :=
    match s.storage.saveLogin with
    | some b => if b then setSaveLogin s b else s
    | none => s
  match s.storage.token with
  | some token =>
    if truthyId u.id && (token.value != "") then
      if isTokenValid checkTokenOutcome then
        (setToken (setUserId s u.id) token, true)
      else
        ({ s with storage := s.storage.removeLoginResponse }, false)
    else (s, false)
  | none => (s, false)

theorem dropWhile_dropWhile (p : Char → Bool) (l : List Char) :
    (l.dropWhile p).dropWhile p = l.dropWhile p := by
  induction l with
  | nil => rfl
  | cons a t ih =>
    by_cases h : p a
    · simpa [List.dropWhile_cons, h] using ih
    · simp [List.dropWhile_cons, h]

theorem head_dropWhile_false (p : Char → Bool) (l : List Char) :
    ∀ a, (l.dropWhile p).head? = some a → p a = false := by
  induction l with
  | nil => intro a h; simp at h
  | cons x t ih =>
    intro a h
    by_cases hx : p x
    · exact ih a (by simpa [List.dropWhile_cons, hx] using h)
    · simp [List.dropWhile_cons, hx] at h
      rw [← h]
      simpa using hx

theorem dropWhile_eq_self_of_head (p : Char → Bool) (l : List Char)
    (h : ∀ a, l.head? = some a → p a = false) : l.dropWhile p = l := by
  cases l with
  | nil => rfl
  | cons x t => simp [List.dropWhile_cons, h x rfl]

theorem trimList_idem (l : List Char) : trimList (trimList l) = trimList l := by
  simp only [trimList]
  set A := l.dropWhile isJsWs with hA
  set C := A.reverse.dropWhile isJsWs with hC
  have hAC : A = C.reverse ++ (A.reverse.takeWhile isJsWs).reverse := by
    have ht : A.reverse.takeWhile isJsWs ++ C = A.reverse := by
      rw [hC]; exact List.takeWhile_append_dropWhile isJsWs A.reverse
    calc A = A.reverse.reverse := (List.reverse_reverse A).symm
      _ = (A.reverse.takeWhile isJsWs ++ C).reverse := by rw [ht]
      _ = C.reverse ++ (A.reverse.takeWhile isJsWs).reverse := by
          rw [List.reverse_append]
  have hhead : ∀ a, C.reverse.head? = some a → isJsWs a = false := by
    intro a ha
    have hAhead : A.head? = some a := by
      rw [hAC]
      cases hcr : C.reverse with
      | nil => rw [hcr] at ha; simp at ha
      | cons y ys =>
        rw [hcr] at ha
        simpa using ha
    exact head_dropWhile_false isJsWs l a (hA ▸ hAhead)
  have h1 : C.reverse.dropWhile isJsWs = C.reverse :=
    dropWhile_eq_self_of_head _ _ hhead
  rw [h1, List.reverse_reverse, hC, dropWhile_dropWhile]

/-- `jsTrim` is idempotent. -/
theorem jsTrim_idem (s : String) : jsTrim (jsTrim s) = jsTrim s :=
  congrArg String.mk (trimList_idem s.data)

/-- The concrete store used in the persistence counterexample: the
save-login flag is off and a stale privilege list is persisted. -/
def c1Store : Store := { state := {}, storage := { privileges := some ["old"] } }

/-- C1, counterexample: the claimed store-or-remove symmetry fails on the
privilege setter — with `saveLogin = false`, `setPrivileges` persists the
new list, where the claim requires the persisted field to be absent
afterwards. -/
theorem c1_persistence_counterexample :
    c1Store.state.saveLogin = false ∧
    (setPrivileges c1Store (some ["read"])).storage.privileges
      = some ["read"] ∧
    (setPrivileges c1Store (some ["read"])).storage.privileges ≠ none := by
  refine ⟨rfl, rfl, by simp [setPrivileges]⟩

/-- C1 (amended): the persistence rule each setter actually implements —
`setUserId`, `setUsername`, `setPassword`, `setMobile` and `setToken`
store when the save-login flag is set and actively remove the persisted
value otherwise; `setUserInfo` writes through only when the flag is set and
leaves the persisted fields untouched otherwise; `setAvatar`,
`setPrivileges` and `setRoles` persist unconditionally, regardless of the
flag. -/
theorem c1_persistence_per_setter (s : Store) (u : UserInfo) (i : Option Nat)
    (username password mobile : String) (avatar : Option String)
    (privileges roles : Option (List String)) (t : Token) :
    (setUserId s i).storage.userId
      = (if s.state.saveLogin then i else none) ∧
    (setUsername s username).storage.username
      = (if s.state.saveLogin then some username else none) ∧
    (setPassword s password).storage.password
      = (if s.state.saveLogin then some password else none) ∧
    (setMobile s mobile).storage.mobile
      = (if s.state.saveLogin then some mobile else none) ∧
    (setToken s t).storage.token
      = (if s.state.saveLogin then some t else none) ∧
    (setUserInfo s u).storage.username
      = (if s.state.saveLogin then u.username else s.storage.username) ∧
    (setUserInfo s u).storage.userId
      = (if s.state.saveLogin then u.id else s.storage.userId) ∧
    (setAvatar s avatar).storage.avatar = avatar ∧
    (setPrivileges s privileges).storage.privileges
      = some (privileges.getD []) ∧
    (setRoles s roles).storage.roles = some (roles.getD []) := by
  refine ⟨?_, ?_, ?_, ?_, ?_, ?_, ?_, ?_, ?_, ?_⟩
  · unfold setUserId ensureUserExist
    cases s.state.user <;> dsimp <;> split_ifs <;> rfl
  · unfold setUsername ensureUserExist
    cases s.state.user <;> dsimp <;> split_ifs <;> rfl
  · unfold setPassword
    dsimp; split_ifs <;> rfl
  · unfold setMobile ensureUserExist
    cases s.state.user <;> dsimp <;> split_ifs <;> rfl
  · unfold setToken
    dsimp; split_ifs <;> rfl
  · unfold setUserInfo AuthStorageState.storeUserInfo
    dsimp; split_ifs <;> rfl
  · unfold setUserInfo AuthStorageState.storeUserInfo
    dsimp; split_ifs <;> rfl
  · unfold setAvatar ensureUserExist
    cases s.state.user <;> rfl
  · rfl
  · rfl

/-- The error used in the entity-dispatch counterexample: a
`SESSION_EXPIRED` body whose only parameter is not an `entity`
parameter, but whose value happens to be `user`. -/
def c2Error : ErrorInfo :=
  { code := "SESSION_EXPIRED", params := some [⟨"foo", "user"⟩] }

/-- C2, counterexample: the error carries no `entity` parameter, so the
claimed dispatch rule requires the unknown-error handling to run; the code,
which dispatches on the first parameter value, runs the re-login
confirmation flow instead. -/
theorem c2_entity_dispatch_counterexample :
    specEntityParamValue c2Error.params = none ∧
    handleResponseError c2Error = HandleResult.confirmLogin ∧
    handleResponseError c2Error ≠ handleUnknownError c2Error := by
  refine ⟨rfl, rfl, by decide⟩

/-- C2 (amended): for `SESSION_EXPIRED` and `INVALID_TOKEN` the three-way
dispatch is keyed on the value of the first element of the `params` array
(not on the parameter whose key is `entity`): first value `app` gives a
blocking alert and rejection with the error, without the credential-reset
flow; first value `user` gives the re-login confirmation flow; anything
else (including an absent or empty `params` array) gives the unknown-error
handling. -/
theorem c2_entity_dispatch_amended (e : ErrorInfo) :
    (e.code = "SESSION_EXPIRED" →
      handleResponseError e =
        (if firstParamValue e == some "app" then
          HandleResult.alertThenReject "错误" "应用会话已过期，请与管理员联系"
        else if firstParamValue e == some "user" then HandleResult.confirmLogin
        else handleUnknownError e)) ∧
    (e.code = "INVALID_TOKEN" →
      handleResponseError e =
        (if firstParamValue e == some "app" then
          HandleResult.alertThenReject "错误" "应用令牌错误，请与管理员联系"
        else if firstParamValue e == some "user" then HandleResult.confirmLogin
        else handleUnknownError e)) := by
  constructor <;> intro hc <;> simp [handleResponseError, hc]

/-- The error used in the entity-dispatch witness: an `INVALID_TOKEN` body
whose first parameter is the `entity = app` disambiguator. -/
def c2WitnessError : ErrorInfo :=
  { code := "INVALID_TOKEN", params := some [⟨"entity", "app"⟩] }

/-- C2, witness: instantiating the amended dispatch rule on a concrete
`INVALID_TOKEN` error whose first parameter value is `app` yields the
blocking app-token alert. -/
theorem c2_entity_dispatch_witness :
    handleResponseError c2WitnessError =
      HandleResult.alertThenReject "错误" "应用令牌错误，请与管理员联系" := by
  rw [(c2_entity_dispatch_amended c2WitnessError).2 rfl]
  decide

/-- A successful response whose request configuration opted out of the
automatic loading clear. -/
def c3SuccessResponse : AxiosResponse :=
  { config := some { returnResponse := false, noAutoClearLoading := true,
                     skipAutoErrorHandling := false },
    data := some (JSVal.str "ok") }

/-- A failed response whose request configuration opted out of the
automatic loading clear. -/
def c3FailError : AxiosError :=
  { config := some { returnResponse := false, noAutoClearLoading := true,
                     skipAutoErrorHandling := false },
    responseData := some { code := "SOME_CODE" } }

/-- C3: evaluation at the failing input — on a successful response whose
request set `noAutoClearLoading`, the success interceptor still clears the
loading indicator (the claim, the repository README and the repository
test-suite all require it to be left alone in that case); the failure
interceptor also clears unconditionally (that half agrees with the
claim). -/
theorem c3_loading_clear_evaluation :
    (responseSuccessInterceptor c3SuccessResponse).loadingCleared = true ∧
    (responseFailInterceptor c3FailError).loadingCleared = true :=
  ⟨rfl, rfl⟩

/-- The malformed header of the extractor counterexample: an extended-form
filename whose percent-encoding is invalid. -/
def c4BadHeader : String :=
  "attachment; filename*=UTF-8" ++ ⟨[apos, apos]⟩ ++ "%ZZ"

/-- C4: evaluation at the failing input — on a header whose extended-form
filename has an invalid percent-encoding, `extractContentDispositionFilename`
propagates the `URIError` thrown by `decodeURIComponent` instead of
returning `null` as its own documentation and the specification require. -/
theorem c4_extract_throws_on_bad_percent :
    extractContentDispositionFilename (some c4BadHeader) = .error () := by
  rfl

/-- C5: `parseResponseDataAsBlob` is total — for every payload shape
(null/undefined, an existing blob, a binary buffer, a plain or array-like
array of mixed numeric and non-numeric elements, a plain object whose
stringification may throw as on a cyclic structure, a malformed or
well-formed base64 data URL, a plain string) and every content type, the
coercion produces a blob, never a propagated error: every throwing
sub-operation is caught, degrading to an empty or literal-text blob. -/
theorem c5_parse_blob_total (response : BlobResponse)
    (contentType : Option String) :
    (parseResponseDataAsBlob response contentType).isOk = true := by
  obtain ⟨data⟩ := response
  cases data with
  | nullish => rfl
  | blob b => rfl
  | buffer bs => rfl
  | array elems => rfl
  | arrayLike elems => rfl
  | object st => cases st <;> rfl
  | str s =>
    unfold parseResponseDataAsBlob
    dsimp only
    split <;> rfl

/-- The store states reachable from `s0` through the token operations
`setToken`, `removeToken` and `resetToken`. -/
inductive TokenReachable (s0 : Store) : Store → Prop
  | refl : TokenReachable s0 s0
  | set (s : Store) (t : Token) :
      TokenReachable s0 s → TokenReachable s0 (setToken s t)
  | remove (s : Store) : TokenReachable s0 s → TokenReachable s0 (removeToken s)
  | reset (s : Store) : TokenReachable s0 s → TokenReachable s0 (resetToken s)

/-- C6: in every store state reachable via `setToken`, `removeToken` and
`resetToken`, the derived `loggedIn` property is `true` exactly when the
token is non-null and its value is a non-empty string. -/
theorem c6_loggedIn_invariant (s0 s : Store) (_ : TokenReachable s0 s) :
    loggedIn s = true ↔ ∃ t, s.state.token = some t ∧ t.value ≠ "" := by
  unfold loggedIn
  cases h : s.state.token with
  | none => simp [h]
  | some t => simp [h, bne_iff_ne]

/-- C6, witness: the invariant instantiated on the state reached by one
`setToken` from a pristine store. -/
theorem c6_loggedIn_invariant_witness :
    loggedIn (setToken ⟨{}, {}⟩ ⟨"tok1"⟩) = true ↔
      ∃ t, (setToken ⟨{}, {}⟩ ⟨"tok1"⟩).state.token = some t ∧ t.value ≠ "" :=
  c6_loggedIn_invariant ⟨{}, {}⟩ _
    (TokenReachable.set ⟨{}, {}⟩ ⟨"tok1"⟩ TokenReachable.refl)

theorem setUserInfo_storage_token (s : Store) (u : UserInfo) :
    (setUserInfo s u).storage.token = s.storage.token := by
  unfold setUserInfo AuthStorageState.storeUserInfo
  dsimp only
  split_ifs <;> rfl

theorem setPassword_storage_token (s : Store) (p : String) :
    (setPassword s p).storage.token = s.storage.token := by
  unfold setPassword
  dsimp only
  split_ifs <;> rfl

theorem setSaveLogin_storage_token (s : Store) (b : Bool) :
    (setSaveLogin s b).storage.token = s.storage.token := rfl

theorem setToken_state_token (s : Store) (t : Token) :
    (setToken s t).state.token = some t := by
  unfold setToken
  dsimp only
  split_ifs <;> rfl

theorem setToken_state_user (s : Store) (t : Token) :
    (setToken s t).state.user = s.state.user := by
  unfold setToken
  dsimp only
  split_ifs <;> rfl

theorem setUserId_state_user (s : Store) (i : Option Nat) :
    ∃ w, (setUserId s i).state.user = some w ∧ w.id = i := by
  unfold setUserId ensureUserExist
  cases s.state.user <;> dsimp only <;> split_ifs <;> exact ⟨_, rfl, rfl⟩

/-- Proof-layer decomposition of the hydration prefix of
`loadTokenFromAuthStorage`: the user-info hydration step. -/
def hydrateUser (s : Store) : Store :=
  let u := s.storage.loadUserInfo
  if truthyStr u.username then setUserInfo s u else s

/-- Proof-layer decomposition: the password hydration step. -/
def hydratePassword (s : Store) : Store :=
  match s.storage.password with
  | some p => if p != "" then setPassword s p else s
  | none => s

/-- Proof-layer decomposition: the save-login hydration step. -/
def hydrateSaveLogin (s : Store) : Store :=
  match s.storage.saveLogin with
  | some b => if b then setSaveLogin s b else s
  | none => s

/-- The full hydration prefix of `loadTokenFromAuthStorage`. -/
def hydrateFromStorage (s : Store) : Store :=
  hydrateSaveLogin (hydratePassword (hydrateUser s))

/-- `loadTokenFromAuthStorage` re-expressed through the hydration
decomposition (definitional equality). -/
theorem loadTokenFromAuthStorage_eq (s : Store) (ck : ApiOutcome) :
    loadTokenFromAuthStorage s ck =
      (match (hydrateFromStorage s).storage.token with
       | some token =>
         if truthyId (s.storage.loadUserInfo).id && (token.value != "") then
           if isTokenValid ck then
             (setToken (setUserId (hydrateFromStorage s)
                (s.storage.loadUserInfo).id) token, true)
           else
             ({ hydrateFromStorage s with
                storage := (hydrateFromStorage s).storage.removeLoginResponse },
              false)
         else (hydrateFromStorage s, false)
       | none => (hydrateFromStorage s, false)) := rfl

theorem hydrateUser_storage_token (s : Store) :
    (hydrateUser s).storage.token = s.storage.token := by
  unfold hydrateUser
  dsimp only
  split_ifs with h
  · exact setUserInfo_storage_token s _
  · rfl

theorem hydratePassword_storage_token (s : Store) :
    (hydratePassword s).storage.token = s.storage.token := by
  unfold hydratePassword
  cases s.storage.password with
  | none => rfl
  | some p =>
    dsimp only
    split_ifs with h
    · exact setPassword_storage_token s p
    · rfl

theorem hydrateSaveLogin_storage_token (s : Store) :
    (hydrateSaveLogin s).storage.token = s.storage.token := by
  unfold hydrateSaveLogin
  cases s.storage.saveLogin with
  | none => rfl
  | some b =>
    dsimp only
    split_ifs <;> rfl

theorem hydrate_storage_token (s : Store) :
    (hydrateFromStorage s).storage.token = s.storage.token := by
  unfold hydrateFromStorage
  rw [hydrateSaveLogin_storage_token, hydratePassword_storage_token,
    hydrateUser_storage_token]

/-- JS truthiness of a nullable token value (`token?.value`). -/
def tokenValueTruthy : Option Token → Bool
  | some t => t.value != ""
  | none => false

/-- Whether the persisted login bundle is fully absent: every field removed
by `AuthStorage.removeLoginResponse` reads back as absent. -/
def purgedLoginBundle (st : AuthStorageState) : Bool :=
  st.userId.isNone && st.username.isNone && st.nickname.isNone &&
  st.avatar.isNone && st.name.isNone && st.gender.isNone &&
  st.mobile.isNone && st.organization.isNone && st.password.isNone &&
  st.token.isNone && st.privileges.isNone && st.roles.isNone

/-- C7: whenever a persisted (truthy) user id and a persisted token value
both exist, `loadTokenFromAuthStorage` returns `true` and commits the user
id and the token into the in-memory state when `checkToken` resolves truthy,
and returns `false` with the entire persisted login bundle purged when
`checkToken` resolves falsy or rejects (`isTokenValid` swallows the
rejection into `false`); when no such pair exists, it returns `false` and
leaves the persisted token untouched. -/
theorem c7_revalidation_gate :
    (∀ (s : Store) (ck : ApiOutcome) (n : Nat) (tok : Token),
      s.storage.userId = some n → n ≠ 0 →
      s.storage.token = some tok → tok.value ≠ "" →
      (isTokenValid ck = true →
        (loadTokenFromAuthStorage s ck).2 = true ∧
        (loadTokenFromAuthStorage s ck).1.state.token = some tok ∧
        ∃ u, (loadTokenFromAuthStorage s ck).1.state.user = some u ∧
          u.id = some n) ∧
      (isTokenValid ck = false →
        (loadTokenFromAuthStorage s ck).2 = false ∧
        purgedLoginBundle (loadTokenFromAuthStorage s ck).1.storage = true)) ∧
    (∀ (s : Store) (ck : ApiOutcome),
      (truthyId s.storage.userId && tokenValueTruthy s.storage.token) = false →
      (loadTokenFromAuthStorage s ck).2 = false ∧
      (loadTokenFromAuthStorage s ck).1.storage.token = s.storage.token) := by
  constructor
  · intro s ck n tok hid hn htok htv
    have huid : (s.storage.loadUserInfo).id = some n := hid
    have hcond : (truthyId (some n) && (tok.value != "")) = true := by
      simp [truthyId, hn, htv]
    constructor
    · intro hv
      have hfin : loadTokenFromAuthStorage s ck =
          (setToken (setUserId (hydrateFromStorage s) (some n)) tok, true) := by
        rw [loadTokenFromAuthStorage_eq, hydrate_storage_token, htok, huid, hv]
        simp [hcond]
      rw [hfin]
      refine ⟨rfl, setToken_state_token _ tok, ?_⟩
      obtain ⟨w, hw, hwid⟩ :=
        setUserId_state_user (hydrateFromStorage s) (some n)
      exact ⟨w, by rw [setToken_state_user]; exact hw, hwid⟩
    · intro hi
      have hfin : loadTokenFromAuthStorage s ck =
          ({ hydrateFromStorage s with
             storage := (hydrateFromStorage s).storage.removeLoginResponse },
           false) := by
        rw [loadTokenFromAuthStorage_eq, hydrate_storage_token, htok, huid, hi]
        simp [hcond]
      rw [hfin]
      exact ⟨rfl, rfl⟩
  · intro s ck hcond
    cases hT : s.storage.token with
    | none =>
      have hfin : loadTokenFromAuthStorage s ck =
          (hydrateFromStorage s, false) := by
        rw [loadTokenFromAuthStorage_eq, hydrate_storage_token, hT]
      rw [hfin]
      exact ⟨rfl, (hydrate_storage_token s).trans hT⟩
    | some tok =>
      rw [hT] at hcond
      have hcf : (truthyId (s.storage.loadUserInfo).id &&
          (tok.value != "")) = false := by
        have hidp : (s.storage.loadUserInfo).id = s.storage.userId := rfl
        rw [hidp]
        simpa [tokenValueTruthy] using hcond
      have hfin : loadTokenFromAuthStorage s ck =
          (hydrateFromStorage s, false) := by
        rw [loadTokenFromAuthStorage_eq, hydrate_storage_token, hT]
        simp [hcf]
      rw [hfin]
      exact ⟨rfl, (hydrate_storage_token s).trans hT⟩

/-- The concrete store used in the revalidation witness: a persisted user
id and a persisted token value. -/
def c7Store : Store :=
  { state := {}, storage := { userId := some 7, token := some ⟨"tok"⟩ } }

/-- C7, witness: on a store persisting user id 7 and token value `tok`, a
truthy `checkToken` resolution yields `true` with the id and token
committed, and a rejected `checkToken` yields `false` with the bundle
purged. -/
theorem c7_revalidation_gate_witness :
    (loadTokenFromAuthStorage c7Store (ApiOutcome.resolves true)).2 = true ∧
    (loadTokenFromAuthStorage c7Store (ApiOutcome.resolves true)).1.state.token
      = some ⟨"tok"⟩ ∧
    (∃ u, (loadTokenFromAuthStorage c7Store
        (ApiOutcome.resolves true)).1.state.user = some u ∧ u.id = some 7) ∧
    (loadTokenFromAuthStorage c7Store ApiOutcome.rejects).2 = false ∧
    purgedLoginBundle
      (loadTokenFromAuthStorage c7Store ApiOutcome.rejects).1.storage = true := by
  have h1 := (c7_revalidation_gate).1 c7Store (ApiOutcome.resolves true) 7
    ⟨"tok"⟩ rfl (by decide) rfl (by decide)
  have h2 := (c7_revalidation_gate).1 c7Store ApiOutcome.rejects 7
    ⟨"tok"⟩ rfl (by decide) rfl (by decide)
  obtain ⟨ha, hb, hc⟩ := h1.1 rfl
  obtain ⟨hd, he⟩ := h2.2 rfl
  exact ⟨ha, hb, hc, hd, he⟩

/-- The error used for the unknown-code alert claim: a code outside the
fixed vocabulary, with a human message and structured params. -/
def c8Error : ErrorInfo :=
  { code := "SOME_OTHER_CODE", message := some "糟糕",
    params := some [⟨"k", "v"⟩] }

/-- C8, counterexample: for a code outside the fixed vocabulary the alert
renders the plain message only — not the claimed
message-plus-contact-administrator line, and no JSON dump of the params is
appended even though params are present. -/
theorem c8_unknown_code_alert_counterexample :
    handleResponseError c8Error = HandleResult.alertThenReject "错误" "糟糕" ∧
    unknownErrorText c8Error ≠ "糟糕" := ⟨rfl, by decide⟩

/-- C8 (amended): every structured error whose code is outside the fixed
vocabulary is routed to the known-error handler: the alert shown before
rejection renders exactly the error message when one is present (with no
suffix and no params dump), and the generic unexpected-error line
otherwise; the message-plus-contact-administrator rendering with the JSON
params dump belongs to `handleUnknownError`, which this default route does
not use. -/
theorem c8_unknown_code_alert_amended (e : ErrorInfo)
    (h1 : e.code ≠ "LOGIN_REQUIRED") (h2 : e.code ≠ "SESSION_EXPIRED")
    (h3 : e.code ≠ "INVALID_TOKEN")
    (h4 : e.code ≠ "APP_AUTHENTICATION_REQUIRED") :
    handleResponseError e = HandleResult.alertThenReject "错误"
      (match e.message with
       | some m => if m != "" then m else unknownErrorGeneric
       | none => unknownErrorGeneric) := by
  simp [handleResponseError, handleKnownError, h1, h2, h3, h4]

/-- C8, witness: the amended rule instantiated on the concrete unknown-code
error. -/
theorem c8_unknown_code_alert_witness :
    handleResponseError c8Error = HandleResult.alertThenReject "错误" "糟糕" :=
  (c8_unknown_code_alert_amended c8Error (by decide) (by decide) (by decide)
    (by decide)).trans rfl

/-- The download arguments of the counterexample: auto-download with an
explicit filename containing a bare percent sign. -/
def c9Args : DownloadArgs :=
  { mimeType := some "application/pdf", autoDownload := true,
    filename := some "100%" }

/-- The response of the download counterexample. -/
def c9Response : DownloadResponse :=
  { contentTypeHeader := some "application/pdf" }

/-- C9, counterexample: with `autoDownload = true` and the explicit filename
`100%`, the success continuation throws (the anchor `download` attribute is
assigned `decodeURIComponent(filename)`, which raises `URIError` on the bare
percent sign), so `download` rejects instead of resolving with the claimed
triple. -/
theorem c9_download_counterexample :
    downloadSuccess c9Args c9Response = .error () := rfl

/-- C9 (amended): `download` resolves with the `(blob, filename, mimeType)`
triple — the filename being the explicit argument, else the extracted
`Content-Disposition` filename, else `downloaded_file`, and the MIME type
being the explicit argument, else the `Content-Type` header — provided the
filename extraction does not throw (when it is consulted) and, when
auto-downloading, the percent-decoding of the resolved filename does not
throw. -/
theorem c9_download_amended (args : DownloadArgs) (response : DownloadResponse)
    (ef : Option String)
    (hex : args.filename = none →
      extractContentDispositionFilename response.contentDispositionHeader
        = .ok ef)
    (hdec : args.autoDownload = true →
      (decodeURIComponent
        ((args.filename.getD (ef.getD "downloaded_file")).data)).isSome
          = true) :
    downloadSuccess args response =
      .ok ⟨⟨response.data,
            args.mimeType.orElse (fun _ => response.contentTypeHeader)⟩,
           args.filename.getD (ef.getD "downloaded_file"),
           args.mimeType.orElse (fun _ => response.contentTypeHeader)⟩ := by
  unfold downloadSuccess
  dsimp only
  cases hf : args.filename with
  | some f =>
    rw [hf] at hdec
    simp only [Option.getD_some] at hdec
    dsimp only
    cases had : args.autoDownload with
    | false => rfl
    | true =>
      cases hD : decodeURIComponent f.data with
      | none => exact absurd (hdec had) (by rw [hD]; simp)
      | some d => rfl
  | none =>
    rw [hf] at hdec
    simp only [Option.getD_none] at hdec
    rw [hex hf]
    dsimp only
    cases had : args.autoDownload with
    | false => rfl
    | true =>
      cases hD : decodeURIComponent (ef.getD "downloaded_file").data with
      | none => exact absurd (hdec had) (by rw [hD]; simp)
      | some d => rfl

/-- The download arguments of the witness: an explicit filename that
percent-decodes successfully. -/
def c9wArgs : DownloadArgs :=
  { mimeType := none, autoDownload := true, filename := some "test.pdf" }

/-- The response of the download witness. -/
def c9wResponse : DownloadResponse :=
  { contentTypeHeader := some "application/pdf",
    contentDispositionHeader := none, data := JSVal.nullish }

/-- C9, witness: the amended resolution rule instantiated on a concrete
auto-download whose filename decodes cleanly — the triple carries the
explicit filename and the MIME type from the `Content-Type` header. -/
theorem c9_download_witness :
    downloadSuccess c9wArgs c9wResponse =
      .ok ⟨⟨JSVal.nullish, some "application/pdf"⟩, "test.pdf",
           some "application/pdf"⟩ :=
  (c9_download_amended c9wArgs c9wResponse none
    (fun h => absurd h (by decide)) (fun _ => by decide)).trans rfl

/-- The header of the trimming counterexample: an extended-form filename
whose percent-encoded payload ends in an encoded space. -/
def c10Header : String :=
  "attachment; filename*=UTF-8" ++ ⟨[apos, apos]⟩ ++ "test%20"

/-- C10, counterexample: the extractor trims the captured value before
percent-decoding, so a percent-encoded trailing space survives into the
returned filename — the returned filename `test ` is not trimmed of its
trailing whitespace, contradicting the claim that every returned filename
is trimmed. -/
theorem c10_trim_counterexample :
    extractContentDispositionFilename (some c10Header) = .ok (some "test ") ∧
    jsTrim "test " ≠ "test " := ⟨rfl, by decide⟩

/-- C10 (amended): every non-null filename produced by the plain
`filename=` branch is trimmed of leading and trailing whitespace (so
literal surrounding whitespace in the header never survives), while a
filename produced by the `filename*=` branch is the percent-decoding of the
trimmed capture — literal surrounding whitespace is removed before
decoding, but whitespace that was percent-encoded inside the value survives
in the result. -/
theorem c10_trim_amended (s f : String)
    (h : extractContentDispositionFilename (some s) = .ok (some f)) :
    (∃ cap, scanStar s.data = some cap ∧
      decodeURIComponent (trimList cap) = some f.data) ∨
    (scanStar s.data = none ∧ jsTrim f = f) := by
  unfold extractContentDispositionFilename at h
  dsimp only at h
  by_cases hs : s = ""
  · rw [if_pos hs] at h
    simp at h
  · rw [if_neg hs] at h
    cases hst : scanStar s.data with
    | some cap =>
      rw [hst] at h
      dsimp only at h
      cases hdec : decodeURIComponent (trimList cap) with
      | some d =>
        rw [hdec] at h
        dsimp only at h
        left
        refine ⟨cap, rfl, ?_⟩
        simp only [Except.ok.injEq, Option.some.injEq] at h
        rw [← h]
        exact hdec
      | none =>
        rw [hdec] at h
        simp at h
    | none =>
      rw [hst] at h
      dsimp only at h
      right
      refine ⟨rfl, ?_⟩
      cases hsp : scanPlain s.data with
      | some cap =>
        rw [hsp] at h
        dsimp only at h
        simp only [Except.ok.injEq, Option.some.injEq] at h
        rw [← h]
        exact congrArg String.mk (trimList_idem cap)
      | none =>
        rw [hsp] at h
        simp at h

/-- C10, witness: the amended trimming rule instantiated on a concrete
plain-form header. -/
theorem c10_trim_witness :
    (∃ cap, scanStar ("attachment; filename=a.txt" : String).data = some cap ∧
      decodeURIComponent (trimList cap) = some ("a.txt" : String).data) ∨
    (scanStar ("attachment; filename=a.txt" : String).data = none ∧
      jsTrim "a.txt" = "a.txt") :=
  c10_trim_amended "attachment; filename=a.txt" "a.txt" rfl

end CommonApp
